import Mathlib

/-!
Shallow embedding of the `kamino_liquidity_analysis` package
(`utils.py`, `jupiter_client.py`, `kamino_client.py`, `analyzer.py`,
`constants.py`), together with theorems settling the frozen claims.

Modelling conventions:
* Python `float` and `Decimal` values are embedded as exact rationals (`ℚ`);
  the source uses `Decimal(str(x))` arithmetic precisely to obtain exact
  decimal behaviour for the conversions, and the spec describes the
  arithmetic as exact.
* Python `None` / absent dict keys are `Option.none`.
* Python exceptions that cross a function boundary are `Except`; error
  messages are embedded as the inductive `ErrorMsg` carrying the same data
  that the Python f-strings interpolate.
* HTTP traffic is embedded as a stream `ℕ → outcome` giving the outcome of
  each successive attempt; `time.sleep` calls are recorded as a list of the
  slept durations.
-/

/-- Error values raised or stored by the code: `ValueError(f"Invalid token
price: {p}")` from `usd_to_native_units`, a transport-level
`requests.RequestException` message, and the literal
`"Max retries exceeded"` fallthrough in `query_swap_price_impact`. -/
inductive ErrorMsg where
  | invalidPrice (p : ℚ)
  | transport (s : String)
  | maxRetries
deriving DecidableEq, Repr

/-- Truncation toward zero, the behaviour of
`Decimal.to_integral_value(ROUND_DOWN)` in `usd_to_native_units`. -/
def truncTowardZero (q : ℚ) : ℤ :=
  if q < 0 then -⌊-q⌋ else ⌊q⌋

/-- Source `utils.usd_to_native_units`: raises `ValueError` when
`token_price_usd <= 0`; otherwise computes `amount_usd / token_price_usd`
exactly, scales by `10 ** decimals` and truncates toward zero. -/
def usd_to_native_units (amount_usd token_price_usd : ℚ) (decimals : ℕ) :
    Except ErrorMsg ℤ :=
  if token_price_usd ≤ 0 then
    .error (.invalidPrice token_price_usd)
  else
    .ok (truncTowardZero (amount_usd / token_price_usd * 10 ^ decimals))

/-- Source `utils.native_to_usd`: `amount_native / (10 ** decimals) * token_price_usd`. -/
def native_to_usd (amount_native : ℤ) (token_price_usd : ℚ) (decimals : ℕ) : ℚ :=
  (amount_native : ℚ) / 10 ^ decimals * token_price_usd

/-- Source `utils.native_to_tokens`: `amount_native / (10 ** decimals)`. -/
def native_to_tokens (amount_native : ℤ) (decimals : ℕ) : ℚ :=
  (amount_native : ℚ) / 10 ^ decimals

/-- Discriminator for `Except`, mirroring `Except.isOk` as a plain Bool. -/
def exceptOk {ε α : Type} : Except ε α → Bool
  | .ok _ => true
  | .error _ => false

/-- C9: `usd_to_native_units` fails with `InvalidPrice` exactly when
`priceUsd ≤ 0` (in particular for prices `0` and `-5`), and succeeds with an
integer for every `priceUsd > 0`. -/
theorem c9_invalid_price (a : ℚ) (p : ℚ) (d : ℕ) :
    exceptOk (usd_to_native_units a p d) = decide (0 < p) ∧
    usd_to_native_units a 0 d = .error (.invalidPrice 0) ∧
    usd_to_native_units a (-5) d = .error (.invalidPrice (-5)) ∧
    (usd_to_native_units a p d =
      if p ≤ 0 then .error (.invalidPrice p)
      else .ok (truncTowardZero (a / p * 10 ^ d))) := by
  refine ⟨?_, ?_, ?_, rfl⟩
  · unfold usd_to_native_units
    by_cases h : p ≤ 0
    · simp [h, exceptOk, not_lt.mpr h]
    · simp [h, exceptOk, not_le.mp h]
  · unfold usd_to_native_units
    norm_num
  · unfold usd_to_native_units
    norm_num

/-- C1: for `amountUsd > 0`, `priceUsd > 0`, `decimals ≤ 18`, the round trip
`native_to_usd (usd_to_native_units amountUsd priceUsd decimals)` lands
within one unit of least precision (`priceUsd / 10 ^ decimals` USD) of
`amountUsd`. -/
theorem c1_round_trip (a p : ℚ) (d : ℕ) (ha : 0 < a) (hp : 0 < p)
    (_hd : d ≤ 18) (n : ℤ) (hn : usd_to_native_units a p d = .ok n) :
    |native_to_usd n p d - a| ≤ p / 10 ^ d := by
  have h10 : (0:ℚ) < 10 ^ d := by positivity
  have hple : ¬ p ≤ 0 := not_le.mpr hp
  unfold usd_to_native_units at hn
  rw [if_neg hple] at hn
  set x : ℚ := a / p * 10 ^ d with hx
  have hx0 : 0 ≤ x := by positivity
  have htr : truncTowardZero x = ⌊x⌋ := by
    unfold truncTowardZero
    rw [if_neg (not_lt.mpr hx0)]
  rw [htr] at hn
  injection hn with hn
  subst hn
  have hfl : ((⌊x⌋ : ℤ) : ℚ) ≤ x := Int.floor_le x
  have hfl2 : x < ⌊x⌋ + 1 := Int.lt_floor_add_one x
  have hc : (0:ℚ) < p / 10 ^ d := by positivity
  have ha2 : a = x * (p / 10 ^ d) := by
    rw [hx]
    field_simp
  have hb : native_to_usd ⌊x⌋ p d = (⌊x⌋ : ℚ) * (p / 10 ^ d) := by
    unfold native_to_usd
    ring
  rw [hb, ha2, abs_le]
  constructor
  · nlinarith [hfl2, hc]
  · nlinarith [hfl, hc]

/-- Witness for C1 at `amountUsd = 100`, `priceUsd = 3`, `decimals = 2`:
the conversion yields `3333` native units and the round trip differs from
`100` by at most `3 / 100`. -/
theorem c1_round_trip_witness :
    usd_to_native_units 100 3 2 = .ok 3333 ∧
    |native_to_usd 3333 3 2 - 100| ≤ 3 / 10 ^ 2 := by
  have h : usd_to_native_units 100 3 2 = .ok 3333 := by
    unfold usd_to_native_units truncTowardZero
    rw [if_neg (by norm_num), if_neg (by norm_num)]
    have : ⌊(100 : ℚ) / 3 * 10 ^ 2⌋ = 3333 := by
      rw [Int.floor_eq_iff]
      norm_num
    rw [this]
  exact ⟨h, c1_round_trip 100 3 2 (by norm_num) (by norm_num) (by norm_num) 3333 h⟩

/-! ## Route plans (`utils.parse_route_summary`, `utils.calculate_route_concentration`) -/

/-- A `swapInfo` dict inside a route step. `none` fields model absent keys.
The source reads `label` with fallback `ammKey` (default `"Unknown"`), and
`percent` with fallback `percentage`. -/
structure SwapInfo where
  label : Option String
  ammKey : Option String
  percent : Option ℚ
  percentage : Option ℚ
deriving DecidableEq, Repr

/-- The value found for `swapInfo` / `swap_info` in a route step:
absent (Python falls back to `{}`, an empty dict), present but not a dict
(the `isinstance(swap_info, dict)` guard skips the step), or a dict. -/
inductive SwapInfoField where
  | absent
  | nonDict
  | info (i : SwapInfo)
deriving DecidableEq, Repr

/-- One entry of a Jupiter `routePlan`: either not a dict at all (skipped by
`isinstance(step, dict)`) or a dict holding a `swapInfo` field. -/
inductive RStep where
  | nonDict
  | dict (swapInfo : SwapInfoField)
deriving DecidableEq, Repr

/-- Reading of `step.get('swapInfo', step.get('swap_info', {}))` followed by the
`isinstance(swap_info, dict)` guard: an absent field behaves as the empty
dict, a non-dict value is rejected. -/
def swapInfoOf : SwapInfoField → Option SwapInfo
  | .absent => some ⟨none, none, none, none⟩
  | .nonDict => none
  | .info i => some i

/-- The loop body of `utils.parse_route_summary`: extract
`swap_info.get('label', swap_info.get('ammKey', 'Unknown'))` and append it
when it is truthy (non-empty) and not already collected. -/
def collectLabel (dexes : List String) (step : RStep) : List String :=
  match step with
  | .nonDict => dexes
  | .dict f =>
    match swapInfoOf f with
    | none => dexes
    | some i =>
      let label := i.label.getD (i.ammKey.getD "Unknown")
      if label ≠ "" ∧ label ∉ dexes then dexes ++ [label] else dexes

/-- Source `utils.parse_route_summary`: walk the plan collecting venue labels,
then join the first 3 with `", "`; an empty plan or empty label list
yields `"Unknown"`. -/
def parse_route_summary (route_plan : List RStep) : String :=
  if route_plan.isEmpty then "Unknown"
  else
    let dexes := route_plan.foldl collectLabel []
    if dexes.isEmpty then "Unknown" else String.intercalate ", " (dexes.take 3)

/-- The loop body of `utils.calculate_route_concentration`: append
`float(swap_info.get('percent', swap_info.get('percentage')))` when present. -/
def collectPercent (ps : List ℚ) (step : RStep) : List ℚ :=
  match step with
  | .nonDict => ps
  | .dict f =>
    match swapInfoOf f with
    | none => ps
    | some i =>
      match i.percent with
      | some p => ps ++ [p]
      | none =>
        match i.percentage with
        | some p => ps ++ [p]
        | none => ps

/-- Source `utils.calculate_route_concentration`: collect `percent` (fallback
`percentage`) values across the plan and return their maximum, or `none`
when the plan is empty or no step reports a percentage. -/
def calculate_route_concentration (route_plan : List RStep) : Option ℚ :=
  if route_plan.isEmpty then none
  else
    let percentages := route_plan.foldl collectPercent []
    if percentages.isEmpty then none else percentages.max?

/-- The venue label one step contributes, phrased after the spec: extract a
label falling back through alternate field names, default `"Unknown"`;
steps without a usable dict, or with a falsy (empty) label, contribute
nothing. -/
def stepLabel : RStep → Option String
  | .nonDict => none
  | .dict f =>
    match swapInfoOf f with
    | none => none
    | some i =>
      let label := i.label.getD (i.ammKey.getD "Unknown")
      if label = "" then none else some label

/-- The percentage one step reports, phrased after the spec: `percent`,
falling back to `percentage`; steps without a usable dict contribute
nothing. -/
def stepPercent : RStep → Option ℚ
  | .nonDict => none
  | .dict f =>
    match swapInfoOf f with
    | none => none
    | some i =>
      match i.percent with
      | some p => some p
      | none => i.percentage

/-- Append `x` unless already seen: first-seen-order deduplication step. -/
def firstSeenInsert (l : List String) (x : String) : List String :=
  if x ∈ l then l else l ++ [x]

/-- First-seen-order deduplication of a list of labels. -/
def firstSeenDistinct (xs : List String) : List String :=
  xs.foldl firstSeenInsert []

/-- The spec's description of `routeSummary`: the first 3 distinct labels in
first-seen order joined by `", "`, with `"Unknown"` for an empty plan or no
labels. -/
def route_summary_spec (route_plan : List RStep) : String :=
  let labels := firstSeenDistinct (route_plan.filterMap stepLabel)
  if route_plan.isEmpty ∨ labels.isEmpty then "Unknown"
  else String.intercalate ", " (labels.take 3)

/-- One step of label collection agrees with first-seen insertion of the
step's label. -/
theorem collectLabel_eq (dexes : List String) (step : RStep) :
    collectLabel dexes step =
      match stepLabel step with
      | none => dexes
      | some lab => firstSeenInsert dexes lab := by
  match step with
  | .nonDict => rfl
  | .dict f =>
    match hf : swapInfoOf f with
    | none => simp [collectLabel, stepLabel, hf]
    | some i =>
      simp only [collectLabel, stepLabel, hf]
      by_cases hlab : i.label.getD (i.ammKey.getD "Unknown") = ""
      · simp [hlab]
      · by_cases hmem : i.label.getD (i.ammKey.getD "Unknown") ∈ dexes
        · simp [hlab, hmem, firstSeenInsert]
        · simp [hlab, hmem, firstSeenInsert]

/-- The label-collecting fold of `parse_route_summary` is first-seen
deduplication of the per-step labels. -/
theorem parse_route_summary_fold (route_plan : List RStep) :
    ∀ acc : List String,
      route_plan.foldl collectLabel acc
        = (route_plan.filterMap stepLabel).foldl firstSeenInsert acc := by
  induction route_plan with
  | nil => intro acc; rfl
  | cons step rest ih =>
    intro acc
    rw [List.foldl_cons, collectLabel_eq]
    match hs : stepLabel step with
    | none =>
      rw [List.filterMap_cons_none hs]
      exact ih acc
    | some lab =>
      rw [List.filterMap_cons_some hs, List.foldl_cons]
      exact ih (firstSeenInsert acc lab)

/-- A 5-step route plan across venues `A, A, B, C, D`. -/
def demoPlan5 : List RStep :=
  [ .dict (.info ⟨some "A", none, none, none⟩),
    .dict (.info ⟨some "A", none, none, none⟩),
    .dict (.info ⟨some "B", none, none, none⟩),
    .dict (.info ⟨some "C", none, none, none⟩),
    .dict (.info ⟨some "D", none, none, none⟩) ]

/-- C7: `parse_route_summary` returns exactly the first 3 distinct venue
labels in first-seen order joined by `", "` (with `"Unknown"` for an empty
plan or no labels), as described by `route_summary_spec`; in particular the
empty plan yields `"Unknown"` and the 5-step plan over venues
`A, A, B, C, D` yields `"A, B, C"`. -/
theorem c7_route_summary :
    (∀ route_plan : List RStep,
        parse_route_summary route_plan = route_summary_spec route_plan) ∧
    parse_route_summary [] = "Unknown" ∧
    parse_route_summary demoPlan5 = "A, B, C" := by
  refine ⟨?_, rfl, by decide⟩
  intro plan
  unfold parse_route_summary route_summary_spec firstSeenDistinct
  rw [parse_route_summary_fold]
  by_cases hp : plan.isEmpty
  · simp [hp]
  · simp [hp]

/-- One step of percentage collection appends the step's reported
percentage, if any. -/
theorem collectPercent_eq (ps : List ℚ) (step : RStep) :
    collectPercent ps step =
      match stepPercent step with
      | none => ps
      | some p => ps ++ [p] := by
  match step with
  | .nonDict => rfl
  | .dict f =>
    match hf : swapInfoOf f with
    | none => simp [collectPercent, stepPercent, hf]
    | some i =>
      match hpc : i.percent with
      | some p => simp [collectPercent, stepPercent, hf, hpc]
      | none =>
        match hpg : i.percentage with
        | some p => simp [collectPercent, stepPercent, hf, hpc, hpg]
        | none => simp [collectPercent, stepPercent, hf, hpc, hpg]

/-- The percentage-collecting fold of `calculate_route_concentration`
accumulates exactly the per-step percentages, in order. -/
theorem calculate_route_concentration_fold (route_plan : List RStep) :
    ∀ acc : List ℚ,
      route_plan.foldl collectPercent acc
        = acc ++ route_plan.filterMap stepPercent := by
  induction route_plan with
  | nil => intro acc; simp
  | cons step rest ih =>
    intro acc
    rw [List.foldl_cons, collectPercent_eq]
    match hs : stepPercent step with
    | none =>
      rw [List.filterMap_cons_none hs]
      exact ih acc
    | some p =>
      rw [List.filterMap_cons_some hs]
      rw [ih (acc ++ [p])]
      simp

/-- C8: `calculate_route_concentration` is the maximum of the per-step
percentages (`percent`, falling back to `percentage`) across the plan, and
it is `none` exactly when the plan is empty or no step reports a
percentage. -/
theorem c8_route_concentration (route_plan : List RStep) :
    calculate_route_concentration route_plan
        = (route_plan.filterMap stepPercent).max? ∧
    (calculate_route_concentration route_plan = none ↔
      route_plan.filterMap stepPercent = []) := by
  have h : calculate_route_concentration route_plan
      = (route_plan.filterMap stepPercent).max? := by
    unfold calculate_route_concentration
    by_cases hp : route_plan.isEmpty
    · rw [if_pos hp]
      rw [List.isEmpty_iff] at hp
      subst hp
      rfl
    · rw [if_neg hp, calculate_route_concentration_fold route_plan []]
      rw [List.nil_append]
      by_cases he : (route_plan.filterMap stepPercent).isEmpty
      · rw [if_pos he]
        rw [List.isEmpty_iff] at he
        rw [he]
        rfl
      · rw [if_neg he]
  refine ⟨h, ?_⟩
  rw [h]
  match hl : route_plan.filterMap stepPercent with
  | [] => simp
  | p :: rest => simp [List.max?_cons']

/-! ## Jupiter client (`jupiter_client.py`) -/

/-- Source `constants.MAX_RETRIES`. -/
def MAX_RETRIES : ℕ := 3

/-- Source `constants.RETRY_BACKOFF_FACTOR`. -/
def RETRY_BACKOFF_FACTOR : ℕ := 2

/-- Source `constants.HIGH_PRICE_IMPACT_THRESHOLD`. -/
def HIGH_PRICE_IMPACT_THRESHOLD : ℚ := 5

/-- Source `constants.ROUTE_CONCENTRATION_THRESHOLD`. -/
def ROUTE_CONCENTRATION_THRESHOLD : ℚ := 70

/-- Source `constants.MIN_TVL_MULTIPLE`. -/
def MIN_TVL_MULTIPLE : ℚ := 5

/-- The body of a 2xx Jupiter `/order` response, as read by
`JupiterClient._parse_quote_response`. `none` models an absent key. The
source accepts `priceImpact` and `outAmount` both as numbers and as numeric
strings; both encodings denote the same value here. -/
structure QuoteResponse where
  priceImpact : Option ℚ
  outAmount : Option ℤ
  slippageBps : Option ℤ
  router : Option String
  routePlan : Option (List RStep)
deriving DecidableEq, Repr

/-- The standardized quote dict produced by `JupiterClient`: the keys of
the dict returned by `_parse_quote_response` and of the error dicts in
`query_swap_price_impact`. The error dicts carry no `route_summary` /
`route_concentration` keys; a later `.get` reads them as `None`, so they
are `none` here. -/
structure ParsedQuote where
  price_impact : Option ℚ
  out_amount : ℤ
  out_amount_usd : ℚ
  slippage_bps : ℤ
  router : Option String
  route_info : List RStep
  route_summary : Option String
  route_concentration : Option ℚ
  success : Bool
  error : Option ErrorMsg
deriving DecidableEq, Repr

/-- Source `JupiterClient._parse_quote_response` on a well-typed body (the
`except` branch is unreachable then): `priceImpact` defaults to `0`, is
scaled by `100` and the absolute value taken; `outAmount` and
`slippageBps` default to `0`; `router` defaults to `"unknown"`;
`routePlan` defaults to `[]`. -/
def parseQuoteResponse (data : QuoteResponse) : ParsedQuote :=
  let price_impact_pct := |data.priceImpact.getD 0 * 100|
  let out_amount := data.outAmount.getD 0
  let slippage_bps := data.slippageBps.getD 0
  let router := data.router.getD "unknown"
  let route_plan := data.routePlan.getD []
  { price_impact := some price_impact_pct
    out_amount := out_amount
    out_amount_usd := 0
    slippage_bps := slippage_bps
    router := some router
    route_info := route_plan
    route_summary := some (parse_route_summary route_plan)
    route_concentration := calculate_route_concentration route_plan
    success := true
    error := none }

/-- The error dict built by `query_swap_price_impact` when retries are
exhausted (and by its unreachable fallthrough). -/
def errorQuote (e : ErrorMsg) : ParsedQuote :=
  { price_impact := none
    out_amount := 0
    out_amount_usd := 0
    slippage_bps := 0
    router := none
    route_info := []
    route_summary := none
    route_concentration := none
    success := false
    error := some e }

/-- Outcome of one HTTP GET against the aggregator: rate limited (429),
2xx with a parseable body, or a `requests.RequestException` (timeout,
connection failure, or the non-2xx raised by `raise_for_status`). -/
inductive HttpOutcome where
  | rateLimited
  | ok (data : QuoteResponse)
  | transportError (msg : String)

/-- The retry loop of `JupiterClient.query_swap_price_impact`:
`for attempt in range(MAX_RETRIES)` with the 429 branch sleeping
`RETRY_BACKOFF_FACTOR ** (attempt + 1)` and continuing, the success branch
returning the parsed quote, and the exception branch sleeping
`RETRY_BACKOFF_FACTOR ** attempt` before the next attempt or returning the
error dict on the last one. `fuel` counts the remaining loop iterations;
the returned list records the durations passed to `time.sleep`. -/
def queryGo (responses : ℕ → HttpOutcome) : ℕ → ℕ → List ℕ → ParsedQuote × List ℕ
  | 0, _, sleeps => (errorQuote .maxRetries, sleeps)
  | fuel + 1, attempt, sleeps =>
    match responses attempt with
    | .rateLimited =>
      queryGo responses fuel (attempt + 1)
        (sleeps ++ [RETRY_BACKOFF_FACTOR ^ (attempt + 1)])
    | .ok data => (parseQuoteResponse data, sleeps)
    | .transportError e =>
      if attempt < MAX_RETRIES - 1 then
        queryGo responses fuel (attempt + 1)
          (sleeps ++ [RETRY_BACKOFF_FACTOR ^ attempt])
      else
        (errorQuote (.transport e), sleeps)

/-- Source `JupiterClient.query_swap_price_impact`, given the outcome of each
successive attempt: run the loop from attempt `0` with `MAX_RETRIES`
iterations. -/
def query_swap_price_impact (responses : ℕ → HttpOutcome) : ParsedQuote × List ℕ :=
  queryGo responses MAX_RETRIES 0 []

/-- A response body with every field absent. -/
def emptyQuoteResponse : QuoteResponse :=
  { priceImpact := none, outAmount := none, slippageBps := none,
    router := none, routePlan := none }

/-- Counterexample to C2: on a response with all numeric fields absent,
`_parse_quote_response` records `price_impact = 0.0`, `out_amount = 0` and
`slippage_bps = 0` — zeros indistinguishable from real data, not an
explicit absent value — in a result marked successful. -/
theorem c2_counterexample :
    emptyQuoteResponse.priceImpact = none ∧
    emptyQuoteResponse.outAmount = none ∧
    emptyQuoteResponse.slippageBps = none ∧
    (parseQuoteResponse emptyQuoteResponse).price_impact = some 0 ∧
    (parseQuoteResponse emptyQuoteResponse).price_impact ≠ none ∧
    (parseQuoteResponse emptyQuoteResponse).out_amount = 0 ∧
    (parseQuoteResponse emptyQuoteResponse).slippage_bps = 0 ∧
    (parseQuoteResponse emptyQuoteResponse).success = true := by
  refine ⟨rfl, rfl, rfl, ?_, ?_, rfl, rfl, rfl⟩
  · simp [parseQuoteResponse, emptyQuoteResponse]
  · simp [parseQuoteResponse, emptyQuoteResponse]

/-- C2 as amended: an absent `priceImpact` is parsed as the present value
`0.0` (after scaling), absent `outAmount` and `slippageBps` as `0`, and an
absent `router` as `"unknown"`; only `route_concentration` is an explicit
`none` when the plan reports no percentages, and the result is still
marked successful. -/
theorem c2_amended (data : QuoteResponse)
    (hpi : data.priceImpact = none) (hoa : data.outAmount = none)
    (hsl : data.slippageBps = none) (hr : data.router = none)
    (hrp : data.routePlan = none) :
    (parseQuoteResponse data).price_impact = some 0 ∧
    (parseQuoteResponse data).out_amount = 0 ∧
    (parseQuoteResponse data).slippage_bps = 0 ∧
    (parseQuoteResponse data).router = some "unknown" ∧
    (parseQuoteResponse data).route_concentration = none ∧
    (parseQuoteResponse data).success = true := by
  unfold parseQuoteResponse
  rw [hpi, hoa, hsl, hr, hrp]
  refine ⟨by simp, rfl, rfl, rfl, rfl, rfl⟩

/-- Witness for the amended C2, at the all-absent response body. -/
theorem c2_amended_witness :
    (parseQuoteResponse emptyQuoteResponse).price_impact = some 0 ∧
    (parseQuoteResponse emptyQuoteResponse).out_amount = 0 ∧
    (parseQuoteResponse emptyQuoteResponse).slippage_bps = 0 ∧
    (parseQuoteResponse emptyQuoteResponse).router = some "unknown" ∧
    (parseQuoteResponse emptyQuoteResponse).route_concentration = none ∧
    (parseQuoteResponse emptyQuoteResponse).success = true :=
  c2_amended emptyQuoteResponse rfl rfl rfl rfl rfl

/-- A simulated aggregator returning HTTP 429 on the first two attempts and
200 with body `data` afterwards. -/
def twice429 (data : QuoteResponse) : ℕ → HttpOutcome
  | 0 => .rateLimited
  | 1 => .rateLimited
  | _ => .ok data

/-- C3: the quote request loop never raises past its boundary — it always
returns a result dict.  On 429 it sleeps `RETRY_BACKOFF_FACTOR ^ (attempt+1)`
seconds and retries, rate limits being retried up to the same cap
(`MAX_RETRIES = 3`) as transport errors: a 429-429-200 upstream yields the
parsed (successful) quote after exactly the two backoff sleeps `[2, 4]`,
three straight 429s exhaust all attempts with the three sleeps `[2, 4, 8]`
and a failed result, and three straight transport failures return a failed
result carrying the last attempt's error message. -/
theorem c3_retry_loop (data : QuoteResponse) (m : ℕ → String) :
    query_swap_price_impact (twice429 data) = (parseQuoteResponse data, [2, 4]) ∧
    (parseQuoteResponse data).success = true ∧
    query_swap_price_impact (fun i => .transportError (m i))
      = (errorQuote (.transport (m 2)), [1, 2]) ∧
    (errorQuote (.transport (m 2))).success = false ∧
    (errorQuote (.transport (m 2))).error = some (.transport (m 2)) ∧
    query_swap_price_impact (fun _ => .rateLimited)
      = (errorQuote .maxRetries, [2, 4, 8]) ∧
    (errorQuote .maxRetries).success = false := by
  refine ⟨rfl, rfl, rfl, rfl, rfl, rfl, rfl⟩

/-! ## Kamino client (`kamino_client.py`) and analyzer (`analyzer.py`) -/

/-- A standardized reserve dict as produced by
`KaminoClient._parse_single_reserve`. -/
structure Reserve where
  symbol : String
  mint_address : String
  decimals : ℕ
  total_deposits : ℚ
  usd_price : ℚ
  tvl_usd : ℚ
  reserve_pubkey : Option String
deriving DecidableEq, Repr

/-- Outcome of one HTTP GET against the Kamino API: a 2xx response whose
parsed body yields the given reserves, or a `requests.RequestException`. -/
inductive FetchOutcome where
  | success (reserves : List Reserve)
  | transportError (msg : String)

/-- The retry loop of `KaminoClient.fetch_market_reserves`:
`for attempt in range(MAX_RETRIES)`, returning the parsed reserves on
success, sleeping and continuing on a transport error before the last
attempt, re-raising the exception (`Except.error`) on the last one.  The
`return []` after the loop is unreachable and modelled by the `fuel = 0`
case. -/
def fetchGo (responses : ℕ → FetchOutcome) : ℕ → ℕ → Except ErrorMsg (List Reserve)
  | 0, _ => .ok []
  | fuel + 1, attempt =>
    match responses attempt with
    | .success reserves => .ok reserves
    | .transportError e =>
      if attempt < MAX_RETRIES - 1 then fetchGo responses fuel (attempt + 1)
      else .error (.transport e)

/-- Source `KaminoClient.fetch_market_reserves`, given the outcome of each
successive attempt. -/
def fetch_market_reserves (responses : ℕ → FetchOutcome) :
    Except ErrorMsg (List Reserve) :=
  fetchGo responses MAX_RETRIES 0

/-- Source `constants.VOLATILE_ASSETS = SOL_BASED + BTC_BASED + ETH_BASED`. -/
def VOLATILE_ASSETS : List String :=
  ["SOL", "MSOL", "JITOSOL", "BSOL", "STSOL", "JSOL", "BNSOL", "HBSOL",
   "COMPASSSOL", "SUPSOL", "INF"] ++
  ["WBTC", "LBTC", "TBTC", "SBTC"] ++
  ["WETH", "STETH", "RETH", "CBETH"]

/-- Source `KaminoClient.filter_volatile_collateral`: case-insensitive,
order-preserving membership filter on symbols. -/
def filter_volatile_collateral (reserves : List Reserve)
    (asset_symbols : List String) : List Reserve :=
  let symbols_upper := asset_symbols.map String.toUpper
  reserves.filter (fun r => r.symbol.toUpper ∈ symbols_upper)

/-- One row of the liquidity curve, as appended by
`JupiterClient.analyze_liquidity_depth`.  The conversion-failure row has no
`slippage_bps` key in the source; the analyzer later reads it with
`.get("slippage_bps", 0)`, so it is `0` here. -/
structure LiquidityPoint where
  swap_size_usd : ℚ
  swap_size_native : ℤ
  swap_size_tokens : ℚ
  price_impact_pct : Option ℚ
  output_usd : ℚ
  effective_price : ℚ
  slippage_bps : ℤ
  router : Option String
  route_summary : Option String
  route_concentration : Option ℚ
  success : Bool
  error : Option ErrorMsg
deriving DecidableEq, Repr

/-- The body of the per-band loop of `JupiterClient.analyze_liquidity_depth`
for one swap size: convert USD to native units (a `ValueError` yields a
failed row and no quote), otherwise query the aggregator (`quote` is the
result of `query_swap_price_impact` for the given native amount) and
compute `output_usd` / `effective_price` only when the quote succeeded with
a positive `out_amount`.  The second component counts quote calls made. -/
def liquidityPointFor (quote : ℤ → ParsedQuote) (token_decimals : ℕ)
    (token_price_usd : ℚ) (output_decimals : ℕ) (output_price_usd : ℚ)
    (swap_size_usd : ℚ) : LiquidityPoint × ℕ :=
  match usd_to_native_units swap_size_usd token_price_usd token_decimals with
  | .error e =>
    ({ swap_size_usd := swap_size_usd
       swap_size_native := 0
       swap_size_tokens := 0
       price_impact_pct := none
       output_usd := 0
       effective_price := 0
       slippage_bps := 0
       router := none
       route_summary := none
       route_concentration := none
       success := false
       error := some e }, 0)
  | .ok amount_native =>
    let swap_size_tokens := native_to_tokens amount_native token_decimals
    let q := quote amount_native
    let output_usd :=
      if q.success = true ∧ 0 < q.out_amount then
        native_to_usd q.out_amount output_price_usd output_decimals
      else 0
    let effective_price :=
      if q.success = true ∧ 0 < q.out_amount then
        (if 0 < swap_size_tokens then output_usd / swap_size_tokens else 0)
      else 0
    ({ swap_size_usd := swap_size_usd
       swap_size_native := amount_native
       swap_size_tokens := swap_size_tokens
       price_impact_pct := q.price_impact
       output_usd := output_usd
       effective_price := effective_price
       slippage_bps := q.slippage_bps
       router := q.router
       route_summary := q.route_summary
       route_concentration := q.route_concentration
       success := q.success
       error := q.error }, 1)

/-- Source `JupiterClient.analyze_liquidity_depth`: one liquidity point per swap
size band, in band order; the second component counts aggregator quote
calls made (one per band whose conversion succeeded).  USDC output defaults
(`output_decimals = 6`, `output_price_usd = 1`) are supplied by the caller. -/
def analyze_liquidity_depth (quote : ℤ → ParsedQuote) (token_decimals : ℕ)
    (token_price_usd : ℚ) (output_decimals : ℕ) (output_price_usd : ℚ)
    (swap_sizes_usd : List ℚ) : List LiquidityPoint × ℕ :=
  swap_sizes_usd.foldl
    (fun acc s =>
      let r := liquidityPointFor quote token_decimals token_price_usd
        output_decimals output_price_usd s
      (acc.1 ++ [r.1], acc.2 + r.2))
    ([], 0)

/-- A risk flag, carrying the value the source interpolates into the flag
string: `"QUOTE_FAILED"`, `f"HIGH_IMPACT_{pi:.1f}%"`,
`f"CONCENTRATED_ROUTE_{c:.0f}%"`, `f"LOW_TVL_RATIO_{r:.1f}x"`. -/
inductive RiskFlag where
  | quoteFailed
  | highImpact (pct : ℚ)
  | concentratedRoute (pct : ℚ)
  | lowTvl (ratio : ℚ)
deriving DecidableEq, Repr

/-- The high-price-impact rule of `LiquidityAnalyzer._identify_risk_flags`:
`if price_impact and price_impact > HIGH_PRICE_IMPACT_THRESHOLD` — a
truthiness guard, `None` and `0.0` both falsy — appends one flag. -/
def highImpactFlags (liquidity_result : LiquidityPoint) : List RiskFlag :=
  match liquidity_result.price_impact_pct with
  | some pi =>
    if pi ≠ 0 ∧ HIGH_PRICE_IMPACT_THRESHOLD < pi then [.highImpact pi] else []
  | none => []

/-- The route-concentration rule of
`LiquidityAnalyzer._identify_risk_flags`:
`if concentration and concentration > ROUTE_CONCENTRATION_THRESHOLD`. -/
def concentratedFlags (liquidity_result : LiquidityPoint) : List RiskFlag :=
  match liquidity_result.route_concentration with
  | some c =>
    if c ≠ 0 ∧ ROUTE_CONCENTRATION_THRESHOLD < c then [.concentratedRoute c] else []
  | none => []

/-- The TVL-ratio rule of `LiquidityAnalyzer._identify_risk_flags`: when
`tvl > 0`, compute `tvl / swap_size_usd` and flag a ratio below
`MIN_TVL_MULTIPLE`. -/
def lowTvlFlags (reserve : Reserve) (liquidity_result : LiquidityPoint) :
    List RiskFlag :=
  if 0 < reserve.tvl_usd then
    let tvl_ratio := reserve.tvl_usd / liquidity_result.swap_size_usd
    if tvl_ratio < MIN_TVL_MULTIPLE then [.lowTvl tvl_ratio] else []
  else []

/-- Source `LiquidityAnalyzer._identify_risk_flags`: a failed quote returns exactly
`[quoteFailed]` (the remaining rules are skipped); otherwise `flags`
accumulates the appends of the three rules in source order, which is their
concatenation. -/
def identify_risk_flags (reserve : Reserve) (liquidity_result : LiquidityPoint) :
    List RiskFlag :=
  if liquidity_result.success = false then [.quoteFailed]
  else
    highImpactFlags liquidity_result ++ concentratedFlags liquidity_result ++
      lowTvlFlags reserve liquidity_result

/-- One flattened row of the analysis DataFrame built by
`LiquidityAnalyzer.generate_liquidity_report` (the wall-clock `timestamp`
column is omitted). -/
structure ReportRow where
  asset_symbol : String
  mint_address : String
  current_price_usd : ℚ
  current_tvl_usd : ℚ
  point : LiquidityPoint
  risk_flags : List RiskFlag
deriving DecidableEq, Repr

/-- Source `LiquidityAnalyzer.generate_liquidity_report`: fetch the reserves (a
fetch that exhausts its retries propagates the exception: `Except.error`),
return an empty report when nothing was fetched or nothing survives the
volatile-collateral filter, and otherwise analyze each reserve across the
size ladder, tagging every liquidity point with its risk flags.  `quote`
gives the aggregator's answer per (mint, native amount); the second
component counts aggregator quote calls made. -/
def generate_liquidity_report (fetchResponses : ℕ → FetchOutcome)
    (quote : String → ℤ → ParsedQuote) (asset_filter : Option (List String))
    (swap_sizes_usd : List ℚ) : Except ErrorMsg (List ReportRow) × ℕ :=
  match fetch_market_reserves fetchResponses with
  | .error e => (.error e, 0)
  | .ok all_reserves =>
    if all_reserves.isEmpty then (.ok [], 0)
    else
      let symbols :=
        match asset_filter with
        | some l => if l.isEmpty then VOLATILE_ASSETS else l
        | none => VOLATILE_ASSETS
      let volatile_reserves := filter_volatile_collateral all_reserves symbols
      if volatile_reserves.isEmpty then (.ok [], 0)
      else
        let res := volatile_reserves.foldl
          (fun (acc : List ReportRow × ℕ) reserve =>
            let lr := analyze_liquidity_depth (quote reserve.mint_address)
              reserve.decimals reserve.usd_price 6 1 swap_sizes_usd
            let rows := lr.1.map (fun pt =>
              { asset_symbol := reserve.symbol
                mint_address := reserve.mint_address
                current_price_usd := reserve.usd_price
                current_tvl_usd := reserve.tvl_usd
                point := pt
                risk_flags := identify_risk_flags reserve pt })
            (acc.1 ++ rows, acc.2 + lr.2))
          ([], 0)
        (.ok res.1, res.2)

/-! ## Claims about the analyzer -/

/-- A successful reserve fetch can never halt the engine: the report is
always an `ok` value. -/
theorem report_ok_of_fetch_ok (fetchResponses : ℕ → FetchOutcome)
    (rs : List Reserve) (h : fetch_market_reserves fetchResponses = .ok rs)
    (quote : String → ℤ → ParsedQuote) (asset_filter : Option (List String))
    (swap_sizes_usd : List ℚ) :
    exceptOk (generate_liquidity_report fetchResponses quote asset_filter
      swap_sizes_usd).1 = true := by
  unfold generate_liquidity_report
  rw [h]
  dsimp only
  split
  · rfl
  · split
    · rfl
    · rfl

/-- C4: a reserve fetch whose every attempt fails with a transport error
raises past `fetch_market_reserves` (`Except.error`, the spec's
`FetchFailed`), `generate_liquidity_report` propagates that error having
made zero aggregator quote calls, and whenever the fetch succeeds the
engine never halts (it returns an `ok` report). -/
theorem c4_fetch_failed (m : ℕ → String) (quote : String → ℤ → ParsedQuote)
    (asset_filter : Option (List String)) (swap_sizes_usd : List ℚ) :
    fetch_market_reserves (fun i => .transportError (m i))
      = .error (.transport (m 2)) ∧
    generate_liquidity_report (fun i => .transportError (m i)) quote
      asset_filter swap_sizes_usd = (.error (.transport (m 2)), 0) ∧
    (∀ rs : List Reserve,
      exceptOk (generate_liquidity_report (fun _ => .success rs) quote
        asset_filter swap_sizes_usd).1 = true) := by
  refine ⟨rfl, rfl, ?_⟩
  intro rs
  exact report_ok_of_fetch_ok (fun _ => .success rs) rs rfl quote
    asset_filter swap_sizes_usd

/-- C5: for every reserve and every liquidity point whose quote failed, the
risk evaluation returns exactly `[quoteFailed]` — the remaining rules are
skipped. -/
theorem c5_quote_failed (reserve : Reserve) (liquidity_result : LiquidityPoint)
    (h : liquidity_result.success = false) :
    identify_risk_flags reserve liquidity_result = [.quoteFailed] := by
  simp [identify_risk_flags, h]

/-- A reserve shaped like the spec's TVL example: `tvl_usd = 10,000,000`. -/
def demoReserve : Reserve :=
  { symbol := "SOL", mint_address := "So11111111111111111111111111111111111111112",
    decimals := 9, total_deposits := 50000, usd_price := 200,
    tvl_usd := 10000000, reserve_pubkey := none }

/-- A successful liquidity point at swap size `5,000,000` USD with modest
price impact and no concentration value. -/
def demoPoint : LiquidityPoint :=
  { swap_size_usd := 5000000, swap_size_native := 25000000000000,
    swap_size_tokens := 25000, price_impact_pct := some 2,
    output_usd := 4900000, effective_price := 196, slippage_bps := 50,
    router := some "metis", route_summary := some "Orca",
    route_concentration := none, success := true, error := none }

/-- A liquidity point whose quote failed, at swap size `5,000,000` USD. -/
def failedPoint : LiquidityPoint :=
  { swap_size_usd := 5000000, swap_size_native := 0,
    swap_size_tokens := 0, price_impact_pct := none,
    output_usd := 0, effective_price := 0, slippage_bps := 0,
    router := none, route_summary := none,
    route_concentration := none, success := false, error := some .maxRetries }

/-- Witness for C5: the failed point at the demo reserve gets exactly the
`quoteFailed` flag. -/
theorem c5_quote_failed_witness :
    identify_risk_flags demoReserve failedPoint = [.quoteFailed] :=
  c5_quote_failed demoReserve failedPoint rfl

/-- The high-impact rule never emits a TVL flag. -/
theorem lowTvl_not_mem_highImpactFlags (pt : LiquidityPoint) (x : ℚ) :
    RiskFlag.lowTvl x ∉ highImpactFlags pt := by
  unfold highImpactFlags
  match pt.price_impact_pct with
  | none => simp
  | some pi =>
    by_cases h : pi ≠ 0 ∧ HIGH_PRICE_IMPACT_THRESHOLD < pi
    · simp [h]
    · simp [h]

/-- The concentration rule never emits a TVL flag. -/
theorem lowTvl_not_mem_concentratedFlags (pt : LiquidityPoint) (x : ℚ) :
    RiskFlag.lowTvl x ∉ concentratedFlags pt := by
  unfold concentratedFlags
  match pt.route_concentration with
  | none => simp
  | some c =>
    by_cases h : c ≠ 0 ∧ ROUTE_CONCENTRATION_THRESHOLD < c
    · simp [h]
    · simp [h]

/-- C6: for any successful point (with a positive swap size) and a reserve
with positive TVL, the `lowTvl` flag for the ratio
`tvl_usd / swap_size_usd` is emitted exactly when that ratio is below
`MIN_TVL_MULTIPLE = 5`; a reserve with `tvl_usd = 0` never receives the
flag; and the spec's example — TVL `10,000,000` against swap size
`5,000,000` — yields exactly `lowTvl 2`. -/
theorem c6_low_tvl :
    (∀ (res : Reserve) (pt : LiquidityPoint), pt.success = true →
        0 < pt.swap_size_usd → 0 < res.tvl_usd →
        (RiskFlag.lowTvl (res.tvl_usd / pt.swap_size_usd) ∈ identify_risk_flags res pt
          ↔ res.tvl_usd / pt.swap_size_usd < MIN_TVL_MULTIPLE)) ∧
    (∀ (res : Reserve) (pt : LiquidityPoint) (x : ℚ), res.tvl_usd = 0 →
        RiskFlag.lowTvl x ∉ identify_risk_flags res pt) ∧
    identify_risk_flags demoReserve demoPoint = [.lowTvl 2] := by
  refine ⟨?_, ?_, ?_⟩
  · intro res pt hs _hsz htvl
    simp only [identify_risk_flags, hs, Bool.true_eq_false, if_false,
      List.mem_append]
    rw [iff_iff_implies_and_implies]
    constructor
    · rintro ((h | h) | h)
      · exact absurd h (lowTvl_not_mem_highImpactFlags pt _)
      · exact absurd h (lowTvl_not_mem_concentratedFlags pt _)
      · unfold lowTvlFlags at h
        rw [if_pos htvl] at h
        by_cases hrat : res.tvl_usd / pt.swap_size_usd < MIN_TVL_MULTIPLE
        · exact hrat
        · rw [if_neg hrat] at h
          simp at h
    · intro hrat
      refine Or.inr ?_
      unfold lowTvlFlags
      rw [if_pos htvl, if_pos hrat]
      simp
  · intro res pt x h0
    unfold identify_risk_flags
    by_cases hs : pt.success = false
    · simp [hs]
    · rw [if_neg hs]
      simp only [List.mem_append]
      rintro ((h | h) | h)
      · exact absurd h (lowTvl_not_mem_highImpactFlags pt _)
      · exact absurd h (lowTvl_not_mem_concentratedFlags pt _)
      · unfold lowTvlFlags at h
        rw [h0] at h
        simp at h
  · unfold identify_risk_flags highImpactFlags concentratedFlags lowTvlFlags
    norm_num [demoReserve, demoPoint, HIGH_PRICE_IMPACT_THRESHOLD,
      ROUTE_CONCENTRATION_THRESHOLD, MIN_TVL_MULTIPLE]

/-- Witness for C6 at the demo reserve and point (ratio `2 < 5`) and at a
zero-TVL reserve. -/
theorem c6_low_tvl_witness :
    (RiskFlag.lowTvl (demoReserve.tvl_usd / demoPoint.swap_size_usd) ∈
        identify_risk_flags demoReserve demoPoint
      ↔ demoReserve.tvl_usd / demoPoint.swap_size_usd < MIN_TVL_MULTIPLE) ∧
    RiskFlag.lowTvl 3 ∉ identify_risk_flags
      { demoReserve with tvl_usd := 0 } demoPoint :=
  ⟨c6_low_tvl.1 demoReserve demoPoint rfl (by norm_num [demoPoint])
      (by norm_num [demoReserve]),
    c6_low_tvl.2.1 { demoReserve with tvl_usd := 0 } demoPoint 3 rfl⟩

/-- C10: when the quote for a band succeeded but reported a non-positive
`out_amount`, the liquidity point keeps `output_usd = 0` and
`effective_price = 0` while `success` stays `true`; output USD is computed
from the quote (via `native_to_usd`) only when the quote succeeded with
`out_amount > 0`. -/
theorem c10_nonpositive_output (quote : ℤ → ParsedQuote) (token_decimals : ℕ)
    (token_price_usd : ℚ) (output_decimals : ℕ) (output_price_usd : ℚ)
    (swap_size_usd : ℚ) (n : ℤ)
    (hn : usd_to_native_units swap_size_usd token_price_usd token_decimals = .ok n) :
    ((quote n).success = true → (quote n).out_amount ≤ 0 →
      (liquidityPointFor quote token_decimals token_price_usd output_decimals
          output_price_usd swap_size_usd).1.output_usd = 0 ∧
      (liquidityPointFor quote token_decimals token_price_usd output_decimals
          output_price_usd swap_size_usd).1.effective_price = 0 ∧
      (liquidityPointFor quote token_decimals token_price_usd output_decimals
          output_price_usd swap_size_usd).1.success = true) ∧
    ((quote n).success = true → 0 < (quote n).out_amount →
      (liquidityPointFor quote token_decimals token_price_usd output_decimals
          output_price_usd swap_size_usd).1.output_usd
        = native_to_usd (quote n).out_amount output_price_usd output_decimals) := by
  constructor
  · intro hq ho
    have hcond : ¬((quote n).success = true ∧ 0 < (quote n).out_amount) := by
      rintro ⟨-, h2⟩
      exact absurd h2 (not_lt.mpr ho)
    simp only [liquidityPointFor, hn]
    refine ⟨by simp [hcond], by simp [hcond], hq⟩
  · intro hq ho
    simp only [liquidityPointFor, hn]
    simp [hq, ho]

/-- A quote oracle that always succeeds with `out_amount = 0`. -/
def zeroOutQuote : ℤ → ParsedQuote := fun _ =>
  { price_impact := some 0, out_amount := 0, out_amount_usd := 0,
    slippage_bps := 0, router := some "unknown", route_info := [],
    route_summary := some "Unknown", route_concentration := none,
    success := true, error := none }

/-- A quote oracle that always succeeds with `out_amount = 995000000000`. -/
def posOutQuote : ℤ → ParsedQuote := fun _ =>
  { price_impact := some 2, out_amount := 995000000000, out_amount_usd := 0,
    slippage_bps := 50, router := some "metis", route_info := [],
    route_summary := some "Orca", route_concentration := some 60,
    success := true, error := none }

/-- Witness for C10 at swap size `1,000,000` USD of a `200`-USD,
9-decimals token: a successful zero-output quote leaves zeros with
`success = true`, and a positive-output quote prices the output through
`native_to_usd`. -/
theorem c10_nonpositive_output_witness :
    (liquidityPointFor zeroOutQuote 9 200 6 1 1000000).1.output_usd = 0 ∧
    (liquidityPointFor zeroOutQuote 9 200 6 1 1000000).1.effective_price = 0 ∧
    (liquidityPointFor zeroOutQuote 9 200 6 1 1000000).1.success = true ∧
    (liquidityPointFor posOutQuote 9 200 6 1 1000000).1.output_usd
      = native_to_usd 995000000000 1 6 := by
  have hn : usd_to_native_units 1000000 200 9 = .ok 5000000000000 := by
    unfold usd_to_native_units truncTowardZero
    rw [if_neg (by norm_num), if_neg (by norm_num)]
    have : ⌊(1000000 : ℚ) / 200 * 10 ^ 9⌋ = 5000000000000 := by
      rw [Int.floor_eq_iff]
      norm_num
    rw [this]
  obtain ⟨h1, h2, h3⟩ :=
    (c10_nonpositive_output zeroOutQuote 9 200 6 1 1000000 5000000000000 hn).1
      rfl (le_refl 0)
  refine ⟨h1, h2, h3, ?_⟩
  exact (c10_nonpositive_output posOutQuote 9 200 6 1 1000000 5000000000000 hn).2
    rfl (by norm_num [posOutQuote])
